import Mathlib

/-!
Verification of `poster_exporter.py`, an HTML-poster export tool.

The Python source is shallowly embedded: pure helpers become Lean
functions, the Playwright render pipeline becomes a function producing an
explicit event trace together with an `Except` result, and the Gradio
handler functions (`process_local_path`, `preview_local_path`,
`process_zip_upload`, `preview_zip_upload`) become state-passing
functions over an abstract environment that supplies the filesystem,
the browser backend, the temp-file allocator and the image decoder.
-/

namespace Poster2

/-! ## String helpers

`pyIn pat s` models the Python expression `pat in s` (substring test).
`hasHtmlExt` models `s.lower().endswith(('.html', '.htm'))`.
-/

def isPrefixOfChars : List Char → List Char → Bool
  | [], _ => true
  | _ :: _, [] => false
  | a :: as, b :: bs => a == b && isPrefixOfChars as bs

def containsChars (pat : List Char) : List Char → Bool
  | [] => pat.isEmpty
  | c :: rest => isPrefixOfChars pat (c :: rest) || containsChars pat rest

/-- Model of the Python expression `pat in s` on strings. -/
def pyIn (pat s : String) : Bool :=
  containsChars pat.toList s.toList

def isSuffixOfChars (suf cs : List Char) : Bool :=
  isPrefixOfChars suf.reverse cs.reverse

/-- Model of `s.endswith(suf)`. -/
def pyEndsWith (s suf : String) : Bool :=
  isSuffixOfChars suf.toList s.toList

/-- Model of `s.lower()`. -/
def lowerStr (s : String) : String :=
  String.mk (s.toList.map Char.toLower)

def dropWhileWs : List Char → List Char
  | [] => []
  | c :: cs => if c.isWhitespace then dropWhileWs cs else c :: cs

/-- Model of `s.strip()`: whitespace removed from both ends. -/
def pyStrip (s : String) : String :=
  String.mk ((dropWhileWs ((dropWhileWs s.toList).reverse)).reverse)

/-- Model of `s.lower().endswith(('.html', '.htm'))` (lines 314, 361). -/
def hasHtmlExt (s : String) : Bool :=
  pyEndsWith (lowerStr s) ".html" || pyEndsWith (lowerStr s) ".htm"

/-- Split a character list at every occurrence of `sep`. -/
def splitOnCh (sep : Char) : List Char → List (List Char)
  | [] => [[]]
  | c :: cs =>
    if c = sep then [] :: splitOnCh sep cs
    else
      match splitOnCh sep cs with
      | [] => [[c]]
      | p :: ps => (c :: p) :: ps

/-! ## ZIP extraction: HTML candidate selection (`extract_zip_to_temp`, lines 276-298)

A file produced by the recursive glob is modelled by the path components
of its directory relative to the extraction root (`dir`, so that
`f.parent == temp_dir` becomes `f.dir = []`) and its file name. -/

structure FileEntry where
  dir : List String
  name : String
  deriving DecidableEq

/-- Model of `'poster' in f.name.lower() or 'index' in f.name.lower()` (line 295). -/
def keywordMatch (f : FileEntry) : Bool :=
  pyIn "poster" (lowerStr f.name) || pyIn "index" (lowerStr f.name)

/-- Model of the selection loop of `extract_zip_to_temp` (lines 290-296):
`html_file` starts as `html_files[0]`; the loop breaks at the first
root-level file, otherwise remembers the latest keyword match. -/
def selectLoop : List FileEntry → FileEntry → FileEntry
  | [], cur => cur
  | f :: fs, cur =>
    if f.dir = [] then f
    else if keywordMatch f then selectLoop fs f
    else selectLoop fs cur

/-- Model of the candidate choice of `extract_zip_to_temp` over the list of
HTML files found by the recursive glob (lines 284-298); `none` models the
`ValueError` raised when no HTML file exists. -/
def extract_select (files : List FileEntry) : Option FileEntry :=
  match files with
  | [] => none
  | f0 :: fs => some (selectLoop (f0 :: fs) f0)

theorem selectLoop_eq_or_mem (fs : List FileEntry) (cur : FileEntry) :
    selectLoop fs cur = cur ∨ selectLoop fs cur ∈ fs := by
  induction fs generalizing cur with
  | nil => exact Or.inl rfl
  | cons f fs ih =>
    by_cases h1 : f.dir = []
    · simp [selectLoop, h1]
    · by_cases h2 : keywordMatch f = true
      · rcases ih f with h | h
        · right; simp [selectLoop, h1, h2, h]
        · right; simp [selectLoop, h1, h2]; right; exact h
      · rcases ih cur with h | h
        · left; simp [selectLoop, h1, h2, h]
        · right; simp [selectLoop, h1, h2]; right; exact h

theorem selectLoop_root (fs : List FileEntry) (cur : FileEntry)
    (h : ∃ f ∈ fs, f.dir = []) : (selectLoop fs cur).dir = [] := by
  induction fs generalizing cur with
  | nil => simp at h
  | cons f fs ih =>
    by_cases h1 : f.dir = []
    · simp [selectLoop, h1]
    · rcases h with ⟨g, hg, hgd⟩
      rcases List.mem_cons.mp hg with h | hgfs
      · exact absurd (h ▸ hgd) h1
      · by_cases h2 : keywordMatch f = true
        · simpa [selectLoop, h1, h2] using ih f ⟨g, hgfs, hgd⟩
        · simpa [selectLoop, h1, h2] using ih cur ⟨g, hgfs, hgd⟩

theorem selectLoop_keyword (fs : List FileEntry) (cur : FileEntry)
    (hroot : ∀ f ∈ fs, f.dir ≠ [])
    (h : (∃ f ∈ fs, keywordMatch f = true) ∨ keywordMatch cur = true) :
    keywordMatch (selectLoop fs cur) = true := by
  induction fs generalizing cur with
  | nil =>
    rcases h with ⟨f, hf, _⟩ | h
    · simp at hf
    · simpa [selectLoop] using h
  | cons f fs ih =>
    have h1 : ¬ f.dir = [] := hroot f (by simp)
    have hroot' : ∀ g ∈ fs, g.dir ≠ [] := fun g hg => hroot g (by simp [hg])
    by_cases h2 : keywordMatch f = true
    · simpa [selectLoop, h1, h2] using ih f hroot' (Or.inr h2)
    · have h' : (∃ g ∈ fs, keywordMatch g = true) ∨ keywordMatch cur = true := by
        rcases h with ⟨g, hg, hgk⟩ | h
        · rcases List.mem_cons.mp hg with rfl | hgfs
          · exact absurd hgk h2
          · exact Or.inl ⟨g, hgfs, hgk⟩
        · exact Or.inr h
      simpa [selectLoop, h1, h2] using ih cur hroot' h'

theorem selectLoop_default (fs : List FileEntry) (cur : FileEntry)
    (h : ∀ f ∈ fs, f.dir ≠ [] ∧ keywordMatch f = false) :
    selectLoop fs cur = cur := by
  induction fs generalizing cur with
  | nil => rfl
  | cons f fs ih =>
    obtain ⟨h1, h2⟩ := h f (by simp)
    have h' : ∀ g ∈ fs, g.dir ≠ [] ∧ keywordMatch g = false :=
      fun g hg => h g (by simp [hg])
    simp [selectLoop, h1, h2, ih cur h']

theorem selectLoop_unique_root : ∀ (fs : List FileEntry) (cur r : FileEntry),
    r ∈ fs → r.dir = [] → (∀ f ∈ fs, f.dir = [] → f = r) → selectLoop fs cur = r
  | [], _, r, hr, _, _ => by simp at hr
  | f :: fs, cur, r, hr, hrd, huniq => by
    by_cases h1 : f.dir = []
    · have hf : f = r := huniq f (by simp) h1
      simp only [selectLoop]
      rw [if_pos h1]
      exact hf
    · have hrfs : r ∈ fs := by
        rcases List.mem_cons.mp hr with h | h
        · exact absurd (h ▸ hrd) h1
        · exact h
      have huniq' : ∀ g ∈ fs, g.dir = [] → g = r :=
        fun g hg => huniq g (by simp [hg])
      by_cases h2 : keywordMatch f = true
      · simpa [selectLoop, h1, h2] using
          selectLoop_unique_root fs f r hrfs hrd huniq'
      · simpa [selectLoop, h1, h2] using
          selectLoop_unique_root fs cur r hrfs hrd huniq'

/-- C1: among the HTML files found in a nonempty archive, `extract_zip_to_temp`
selects (1) a root-level file when one exists — and when exactly one
root-level file exists, that very file, regardless of nested files —
(2) otherwise a file whose name contains "poster" or "index"
(case-insensitively) when one exists, (3) otherwise the first file in
traversal order. -/
theorem c1_zip_html_selection (files : List FileEntry) (hne : files ≠ []) :
    ∃ sel, extract_select files = some sel ∧ sel ∈ files ∧
      ((∃ f ∈ files, f.dir = []) → sel.dir = []) ∧
      ((∀ f ∈ files, f.dir ≠ []) →
        (∃ f ∈ files, keywordMatch f = true) → keywordMatch sel = true) ∧
      ((∀ f ∈ files, f.dir ≠ []) →
        (∀ f ∈ files, keywordMatch f = false) → files.head? = some sel) ∧
      (∀ r, r ∈ files → r.dir = [] →
        (∀ f ∈ files, f.dir = [] → f = r) → sel = r) := by
  match files, hne with
  | f0 :: fs, _ =>
    refine ⟨selectLoop (f0 :: fs) f0, rfl, ?_, ?_, ?_, ?_, ?_⟩
    · rcases selectLoop_eq_or_mem (f0 :: fs) f0 with h | h
      · simp [h]
      · exact h
    · exact selectLoop_root (f0 :: fs) f0
    · intro hroot hkw
      exact selectLoop_keyword (f0 :: fs) f0 hroot (Or.inl hkw)
    · intro hroot hkw
      have : selectLoop (f0 :: fs) f0 = f0 :=
        selectLoop_default (f0 :: fs) f0 (fun f hf => ⟨hroot f hf, hkw f hf⟩)
      simp [this]
    · intro r hr hrd huniq
      exact selectLoop_unique_root (f0 :: fs) f0 r hr hrd huniq

def c1DemoFiles : List FileEntry :=
  [⟨["assets"], "page.html"⟩, ⟨[], "main.html"⟩]

/-- Witness for C1 at a concrete archive with one nested and one
root-level HTML file. -/
theorem c1_zip_html_selection_witness :
    ∃ sel, extract_select c1DemoFiles = some sel ∧ sel ∈ c1DemoFiles ∧
      ((∃ f ∈ c1DemoFiles, f.dir = []) → sel.dir = []) ∧
      ((∀ f ∈ c1DemoFiles, f.dir ≠ []) →
        (∃ f ∈ c1DemoFiles, keywordMatch f = true) → keywordMatch sel = true) ∧
      ((∀ f ∈ c1DemoFiles, f.dir ≠ []) →
        (∀ f ∈ c1DemoFiles, keywordMatch f = false) → c1DemoFiles.head? = some sel) ∧
      (∀ r, r ∈ c1DemoFiles → r.dir = [] →
        (∀ f ∈ c1DemoFiles, f.dir = [] → f = r) → sel = r) :=
  c1_zip_html_selection c1DemoFiles (by decide)

/-! ## Render pipeline (`render_html_file_to_image`, lines 197-268)

The Playwright calls are modelled as an event trace; awaiting happens in
program order, so the order of the trace is the order of the awaited
suspension points.  The environment supplies the outcomes the browser
determines: whether navigation raises, whether `document.fonts.ready`
evaluation raises (the code swallows that), whether the poster selector
matches, and the bytes either screenshot call produces. -/

def DEFAULT_WIDTH : Nat := 900
def DEFAULT_HEIGHT : Nat := 1200

/-- The CSS string injected by `page.add_style_tag` (lines 229-243),
reproduced verbatim from the source (including trailing blanks). -/
def snapshotCss : String :=
  "\n            .glass-panel \x7b\n                background: rgba(255, 255, 255, 0.96) !important; \n                backdrop-filter: none !important;\n                -webkit-backdrop-filter: none !important;\n                box-shadow: 0 8px 30px rgba(0,0,0,0.08) !important;\n            \x7d\n            body, #poster \x7b\n                text-rendering: geometricPrecision; \n                -webkit-font-smoothing: antialiased;\n            \x7d\n            #control-panel \x7b\n                display: none !important;\n            \x7d\n        "

/-- Alpha channel of the `.glass-panel` background forced by the injected
CSS: `rgba(255, 255, 255, 0.96)` (line 231). -/
def glassPanelAlpha : ℚ := 96 / 100

inductive RenderEvent where
  | launch
  | newContext (vpWidth vpHeight : Nat) (scale : ℚ)
  | newPage
  | goto (url : String) (waitUntil : String)
  | addStyleTag (css : String)
  | waitForTimeout (ms : Nat)
  | evalFontsReady (failed : Bool)
  | elementScreenshot (selector : String) (imgType : String) (omitBackground : Bool)
  | pageScreenshot (imgType : String) (fullPage : Bool)
  | closeBrowser
  deriving DecidableEq

structure RenderEnv where
  resolve : String → String
  gotoFails : Bool
  fontsReadyFails : Bool
  selectorFound : Bool
  elementShot : List Nat
  pageShot : List Nat

/-- Model of `f"file://{Path(html_file_path).resolve()}"` (lines 210-211). -/
def fileUrl (env : RenderEnv) (path : String) : String :=
  "file://" ++ env.resolve path

/-- Model of `render_html_file_to_image` (lines 197-268): the trace of
awaited browser calls together with the returned screenshot bytes, or the
propagated error when navigation raises. -/
def render_html_file_to_image (env : RenderEnv) (html_file_path : String)
    (ppi : Nat) (width : Nat) (height : Nat) (poster_selector : String) :
    List RenderEvent × Except String (List Nat) :=
  let device_scale_factor : ℚ := (ppi : ℚ) / 96
  let pre : List RenderEvent :=
    [RenderEvent.launch,
     RenderEvent.newContext (width + 100) (height + 200) device_scale_factor,
     RenderEvent.newPage]
  if env.gotoFails then
    (pre ++ [RenderEvent.goto (fileUrl env html_file_path) "networkidle"],
     Except.error "navigation failed")
  else
    (pre ++
      [RenderEvent.goto (fileUrl env html_file_path) "networkidle",
       RenderEvent.addStyleTag snapshotCss,
       RenderEvent.waitForTimeout 2000,
       RenderEvent.evalFontsReady env.fontsReadyFails] ++
      (if env.selectorFound then
        [RenderEvent.elementScreenshot poster_selector "png" false]
       else
        [RenderEvent.pageScreenshot "png" false]) ++
      [RenderEvent.closeBrowser],
     Except.ok (if env.selectorFound then env.elementShot else env.pageShot))

/-- Model of `sync_render_html_file_to_image` (lines 271-273); the defaults
of `render_html_file_to_image` are `width=900`, `height=1200`,
`poster_selector="#poster"`. -/
def sync_render_html_file_to_image (env : RenderEnv) (path : String) (ppi : Nat) :
    List RenderEvent × Except String (List Nat) :=
  render_html_file_to_image env path ppi DEFAULT_WIDTH DEFAULT_HEIGHT "#poster"

theorem render_newContext_mem (env : RenderEnv) (path : String)
    (ppi w h : Nat) (sel : String) (a b : Nat) (s : ℚ)
    (hmem : RenderEvent.newContext a b s ∈
      (render_html_file_to_image env path ppi w h sel).fst) :
    a = w + 100 ∧ b = h + 200 ∧ s = (ppi : ℚ) / 96 := by
  by_cases hg : env.gotoFails
  · simp [render_html_file_to_image, hg] at hmem
    exact ⟨hmem.1, hmem.2⟩
  · by_cases hs : env.selectorFound
    · simp [render_html_file_to_image, hg, hs] at hmem
      exact ⟨hmem.1, hmem.2⟩
    · simp [render_html_file_to_image, hg, hs] at hmem
      exact ⟨hmem.1, hmem.2⟩

/-- C2: the awaited pipeline steps occur in strict sequence — navigation
to the file-scheme URL waiting for network idle, then injection of the
style override, then an unconditional 2000 ms delay, then the best-effort
fonts-ready wait (whose failure flag is recorded but swallowed), then the
screenshot — and the render still returns bytes even when the fonts-ready
evaluation failed. -/
theorem c2_pipeline_order (env : RenderEnv) (path : String)
    (ppi w h : Nat) (sel : String) (hgoto : env.gotoFails = false) :
    (render_html_file_to_image env path ppi w h sel).fst =
      [RenderEvent.launch,
       RenderEvent.newContext (w + 100) (h + 200) ((ppi : ℚ) / 96),
       RenderEvent.newPage,
       RenderEvent.goto (fileUrl env path) "networkidle",
       RenderEvent.addStyleTag snapshotCss,
       RenderEvent.waitForTimeout 2000,
       RenderEvent.evalFontsReady env.fontsReadyFails,
       (if env.selectorFound then
          RenderEvent.elementScreenshot sel "png" false
        else RenderEvent.pageScreenshot "png" false),
       RenderEvent.closeBrowser] ∧
    ∃ bytes, (render_html_file_to_image env path ppi w h sel).snd =
      Except.ok bytes := by
  constructor
  · by_cases hs : env.selectorFound
    · simp [render_html_file_to_image, hgoto, hs]
    · simp [render_html_file_to_image, hgoto, hs]
  · by_cases hs : env.selectorFound
    · exact ⟨env.elementShot, by simp [render_html_file_to_image, hgoto, hs]⟩
    · exact ⟨env.pageShot, by simp [render_html_file_to_image, hgoto, hs]⟩

def c2DemoEnv : RenderEnv :=
  ⟨fun s => s, false, true, true, [1, 2, 3], [4, 5]⟩

/-- Witness for C2 at a concrete environment in which the fonts-ready
evaluation fails and the selector matches. -/
theorem c2_pipeline_order_witness :
    (render_html_file_to_image c2DemoEnv "/p/poster.html" 300 900 1200 "#poster").fst =
      [RenderEvent.launch,
       RenderEvent.newContext (900 + 100) (1200 + 200) ((300 : ℚ) / 96),
       RenderEvent.newPage,
       RenderEvent.goto (fileUrl c2DemoEnv "/p/poster.html") "networkidle",
       RenderEvent.addStyleTag snapshotCss,
       RenderEvent.waitForTimeout 2000,
       RenderEvent.evalFontsReady c2DemoEnv.fontsReadyFails,
       (if c2DemoEnv.selectorFound then
          RenderEvent.elementScreenshot "#poster" "png" false
        else RenderEvent.pageScreenshot "png" false),
       RenderEvent.closeBrowser] ∧
    ∃ bytes,
      (render_html_file_to_image c2DemoEnv "/p/poster.html" 300 900 1200 "#poster").snd =
        Except.ok bytes :=
  c2_pipeline_order c2DemoEnv "/p/poster.html" 300 900 1200 "#poster" rfl

/-- C5: when the target selector matches no element, the render does not
raise — it returns the full-viewport screenshot taken with
`full_page=False`, and takes no element screenshot; when the selector
matches, it returns the element screenshot taken with `type="png"` and
`omit_background=False`, and takes no page screenshot. -/
theorem c5_selector_fallback (env : RenderEnv) (path : String)
    (ppi w h : Nat) (sel : String) (hgoto : env.gotoFails = false) :
    (env.selectorFound = false →
      (render_html_file_to_image env path ppi w h sel).snd =
        Except.ok env.pageShot ∧
      RenderEvent.pageScreenshot "png" false ∈
        (render_html_file_to_image env path ppi w h sel).fst ∧
      (∀ b, RenderEvent.elementScreenshot sel "png" b ∉
        (render_html_file_to_image env path ppi w h sel).fst)) ∧
    (env.selectorFound = true →
      (render_html_file_to_image env path ppi w h sel).snd =
        Except.ok env.elementShot ∧
      RenderEvent.elementScreenshot sel "png" false ∈
        (render_html_file_to_image env path ppi w h sel).fst ∧
      (∀ t fp, RenderEvent.pageScreenshot t fp ∉
        (render_html_file_to_image env path ppi w h sel).fst)) := by
  constructor
  · intro hs
    refine ⟨by simp [render_html_file_to_image, hgoto, hs], ?_, ?_⟩
    · simp [render_html_file_to_image, hgoto, hs]
    · intro b
      simp [render_html_file_to_image, hgoto, hs]
  · intro hs
    refine ⟨by simp [render_html_file_to_image, hgoto, hs], ?_, ?_⟩
    · simp [render_html_file_to_image, hgoto, hs]
    · intro t fp
      simp [render_html_file_to_image, hgoto, hs]

def c5DemoEnv : RenderEnv :=
  ⟨fun s => s, false, false, false, [1], [7, 8]⟩

/-- Witness for C5 at a concrete environment whose document has no element
matching the selector. -/
theorem c5_selector_fallback_witness :
    (render_html_file_to_image c5DemoEnv "/p/a.html" 72 900 1200 "#poster").snd =
      Except.ok c5DemoEnv.pageShot ∧
    RenderEvent.pageScreenshot "png" false ∈
      (render_html_file_to_image c5DemoEnv "/p/a.html" 72 900 1200 "#poster").fst ∧
    (∀ b, RenderEvent.elementScreenshot "#poster" "png" b ∉
      (render_html_file_to_image c5DemoEnv "/p/a.html" 72 900 1200 "#poster").fst) :=
  (c5_selector_fallback c5DemoEnv "/p/a.html" 72 900 1200 "#poster" rfl).1 rfl

/-- C6: the browser context is always created with a viewport of exactly
(width + 100, height + 200) and a device scale factor of ppi / 96; the
trace's second event is that context creation, and every context-creation
event in the trace has exactly these parameters. -/
theorem c6_viewport_and_scale (env : RenderEnv) (path : String)
    (ppi w h : Nat) (sel : String) :
    (render_html_file_to_image env path ppi w h sel).fst.get? 1 =
      some (RenderEvent.newContext (w + 100) (h + 200) ((ppi : ℚ) / 96)) ∧
    (∀ a b s, RenderEvent.newContext a b s ∈
        (render_html_file_to_image env path ppi w h sel).fst →
      a = w + 100 ∧ b = h + 200 ∧ s = (ppi : ℚ) / 96) := by
  constructor
  · by_cases hg : env.gotoFails
    · simp [render_html_file_to_image, hg]
    · simp [render_html_file_to_image, hg]
  · intro a b s hmem
    exact render_newContext_mem env path ppi w h sel a b s hmem

/-! ## Density presets and local-path handlers
(`PPI_OPTIONS` lines 168-173, `process_local_path` lines 301-347,
`preview_local_path` lines 350-376) -/

def PPI_OPTIONS : List (String × Nat) :=
  [("72 PPI (屏幕预览)", 72),
   ("150 PPI (普通打印)", 150),
   ("300 PPI (高清印刷)", 300),
   ("600 PPI (超清印刷)", 600)]

/-- Model of `PPI_OPTIONS.get(ppi_choice, 300)` (lines 318, 387). -/
def ppiOptionsGet (choice : String) : Nat :=
  (PPI_OPTIONS.lookup choice).getD 300

/-- Final path component, as in `pathlib`. -/
def pathName (p : String) : String :=
  String.mk ((splitOnCh '/' p.toList).getLastD p.toList)

def joinDots : List (List Char) → List Char
  | [] => []
  | [p] => p
  | p :: ps => p ++ '.' :: joinDots ps

/-- Model of `pathlib.PurePath.stem` on a file name: the name without its
suffix, where the suffix starts at the last dot provided that dot is
neither the first nor the last character. -/
def stemOfName (name : String) : String :=
  let parts := splitOnCh '.' name.toList
  if parts.length ≤ 1 then name
  else
    let pre := joinDots parts.dropLast
    let suf := parts.getLastD []
    if pre = [] ∨ suf = [] then name else String.mk pre

/-- Model of `Path(p).stem` (line 324). -/
def pathStem (p : String) : String :=
  stemOfName (pathName p)

inductive LocalOutcome where
  | emptyPrompt
  | notFound (path : String)
  | notHtml
  | exported (outPath : String) (written : List Nat) (pixelW pixelH : Nat)
      (ppi : Nat) (src : String)
  | previewed (outPath : String) (written : List Nat)
  | failed
  deriving DecidableEq

/-- Environment of the local-path handlers: the filesystem existence test
(`os.path.exists`), `os.path.expanduser`, the browser backend, the
temp-file allocator (`tempfile.NamedTemporaryFile`, mapping the requested
suffix to the allocated path) and the image decoder (`PIL.Image.open`,
`none` when the bytes cannot be decoded). -/
structure LocalEnv where
  pathExists : String → Bool
  expanduser : String → String
  renderEnv : RenderEnv
  tmpName : String → String
  decodeSize : List Nat → Option (Nat × Nat)

/-- Model of `process_local_path` (lines 301-347): empty-input prompt,
existence check, extension check, render, write of the rendered bytes to
a temp file whose suffix embeds the source stem and the density, and
decoding of the bytes for the reported dimensions.  The second component
is the trace of browser events produced by the call. -/
def process_local_path (env : LocalEnv) (local_path ppi_choice : String) :
    LocalOutcome × List RenderEvent :=
  if pyStrip local_path = "" then (LocalOutcome.emptyPrompt, [])
  else
    let p := env.expanduser (pyStrip local_path)
    if env.pathExists p = false then (LocalOutcome.notFound p, [])
    else if hasHtmlExt p = false then (LocalOutcome.notHtml, [])
    else
      let ppi := ppiOptionsGet ppi_choice
      let rendered := sync_render_html_file_to_image env.renderEnv p ppi
      let out : LocalOutcome :=
        match rendered.snd with
        | Except.error _ => LocalOutcome.failed
        | Except.ok bytes =>
          let output_path :=
            env.tmpName ("_" ++ pathStem p ++ "_" ++ toString ppi ++ "PPI.png")
          match env.decodeSize bytes with
          | none => LocalOutcome.failed
          | some wh =>
            LocalOutcome.exported output_path bytes wh.fst wh.snd ppi p
      (out, rendered.fst)

/-- Model of `preview_local_path` (lines 350-376): same checks, render at
the fixed density 72, write to a `_preview.png` temp file. -/
def preview_local_path (env : LocalEnv) (local_path : String) :
    LocalOutcome × List RenderEvent :=
  if pyStrip local_path = "" then (LocalOutcome.emptyPrompt, [])
  else
    let p := env.expanduser (pyStrip local_path)
    if env.pathExists p = false then (LocalOutcome.notFound p, [])
    else if hasHtmlExt p = false then (LocalOutcome.notHtml, [])
    else
      let rendered := sync_render_html_file_to_image env.renderEnv p 72
      let out : LocalOutcome :=
        match rendered.snd with
        | Except.error _ => LocalOutcome.failed
        | Except.ok bytes => LocalOutcome.previewed (env.tmpName "_preview.png") bytes
      (out, rendered.fst)

/-- C7: on a nonempty direct path input, a nonexistent path yields the
not-found outcome (regardless of its extension, so existence is checked
first), an existing path without a recognized HTML extension yields the
unsupported-format outcome, both with an empty browser trace (no browser
session is created); the recognized extensions are exactly `.html` and
`.htm` compared case-insensitively. -/
theorem c7_local_path_checks (env : LocalEnv) (path choice : String)
    (hne : pyStrip path ≠ "") :
    (env.pathExists (env.expanduser (pyStrip path)) = false →
      process_local_path env path choice =
        (LocalOutcome.notFound (env.expanduser (pyStrip path)), []) ∧
      preview_local_path env path =
        (LocalOutcome.notFound (env.expanduser (pyStrip path)), [])) ∧
    (env.pathExists (env.expanduser (pyStrip path)) = true →
      hasHtmlExt (env.expanduser (pyStrip path)) = false →
      process_local_path env path choice = (LocalOutcome.notHtml, []) ∧
      preview_local_path env path = (LocalOutcome.notHtml, [])) ∧
    hasHtmlExt (env.expanduser (pyStrip path)) =
      (pyEndsWith (lowerStr (env.expanduser (pyStrip path))) ".html" ||
       pyEndsWith (lowerStr (env.expanduser (pyStrip path))) ".htm") := by
  refine ⟨?_, ?_, rfl⟩
  · intro hnex
    constructor <;> simp [process_local_path, preview_local_path, hne, hnex]
  · intro hex hext
    constructor <;> simp [process_local_path, preview_local_path, hne, hex, hext]

def c7DemoEnv : LocalEnv :=
  ⟨fun _ => false, fun s => s, ⟨fun s => s, false, false, true, [1], [2]⟩,
   fun s => "/tmp/out" ++ s, fun _ => some (10, 20)⟩

/-- Witness for C7 at a concrete environment in which no path exists. -/
theorem c7_local_path_checks_witness :
    process_local_path c7DemoEnv "/missing.HTML" "300 PPI (高清印刷)" =
      (LocalOutcome.notFound (c7DemoEnv.expanduser (pyStrip "/missing.HTML")), []) ∧
    preview_local_path c7DemoEnv "/missing.HTML" =
      (LocalOutcome.notFound (c7DemoEnv.expanduser (pyStrip "/missing.HTML")), []) :=
  (c7_local_path_checks c7DemoEnv "/missing.HTML" "300 PPI (高清印刷)"
    (by decide)).1 rfl

/-- C4 as claimed: a density choice that is not a recognized preset is
rejected before any browser session is created, i.e. the handler produces
an empty browser trace. -/
def c4Claim : Prop :=
  ∀ (env : LocalEnv) (path choice : String),
    PPI_OPTIONS.lookup choice = none →
    (process_local_path env path choice).snd = []

def c4DemoEnv : LocalEnv :=
  ⟨fun _ => true, fun s => s, ⟨fun s => s, false, false, true, [1], [2]⟩,
   fun s => "/tmp/out" ++ s, fun _ => some (10, 20)⟩

/-- Counterexample to C4: with an existing `.html` path and the
unrecognized density choice "bogus", the handler proceeds to create a
browser session (the trace is nonempty) instead of rejecting. -/
theorem c4_counterexample : ¬ c4Claim := by
  intro hcl
  have h := hcl c4DemoEnv "/p/poster.html" "bogus" (by decide)
  revert h
  decide

/-- C4 amended: an unrecognized density choice is silently coerced to the
default 300 and the pipeline proceeds to create a browser session with
scale 300 / 96; no validation error exists.  Zero or negative densities
cannot arise from the preset table, whose values are all positive. -/
theorem c4_amended (env : LocalEnv) (path choice : String)
    (hlook : PPI_OPTIONS.lookup choice = none)
    (hne : pyStrip path ≠ "")
    (hex : env.pathExists (env.expanduser (pyStrip path)) = true)
    (hext : hasHtmlExt (env.expanduser (pyStrip path)) = true) :
    ppiOptionsGet choice = 300 ∧
    (process_local_path env path choice).snd.get? 0 = some RenderEvent.launch ∧
    (process_local_path env path choice).snd.get? 1 =
      some (RenderEvent.newContext (DEFAULT_WIDTH + 100) (DEFAULT_HEIGHT + 200)
        ((300 : ℚ) / 96)) ∧
    (∀ p ∈ PPI_OPTIONS, 0 < p.snd) := by
  have hppi : ppiOptionsGet choice = 300 := by
    simp [ppiOptionsGet, hlook]
  have htr : (process_local_path env path choice).snd =
      (sync_render_html_file_to_image env.renderEnv (env.expanduser (pyStrip path))
        (ppiOptionsGet choice)).fst := by
    simp [process_local_path, hne, hex, hext]
  refine ⟨hppi, ?_, ?_, by decide⟩
  · rw [htr, hppi]
    by_cases hg : env.renderEnv.gotoFails <;>
      simp [sync_render_html_file_to_image, render_html_file_to_image, hg]
  · rw [htr, hppi]
    by_cases hg : env.renderEnv.gotoFails <;>
      simp [sync_render_html_file_to_image, render_html_file_to_image, hg,
        DEFAULT_WIDTH, DEFAULT_HEIGHT]

/-- Witness for the amended C4 at a concrete environment and the
unrecognized choice "bogus". -/
theorem c4_amended_witness :
    ppiOptionsGet "bogus" = 300 ∧
    (process_local_path c4DemoEnv "/p/poster.html" "bogus").snd.get? 0 =
      some RenderEvent.launch ∧
    (process_local_path c4DemoEnv "/p/poster.html" "bogus").snd.get? 1 =
      some (RenderEvent.newContext (DEFAULT_WIDTH + 100) (DEFAULT_HEIGHT + 200)
        ((300 : ℚ) / 96)) ∧
    (∀ p ∈ PPI_OPTIONS, 0 < p.snd) :=
  c4_amended c4DemoEnv "/p/poster.html" "bogus" (by decide) (by decide)
    (by decide) (by decide)

/-! ## ZIP upload handlers
(`process_zip_upload` lines 379-428, `preview_zip_upload` lines 431-463)

Both handlers extract the archive to a scratch directory, render the
selected HTML file, and in a `finally` block remove the scratch directory
when the local variable `temp_dir` was assigned and the directory exists,
swallowing any error the removal raises.  The scratch directory's state is
tracked explicitly. -/

structure ScratchState where
  created : Bool
  present : Bool
  rmtreeCalled : Bool
  deriving DecidableEq

def noScratch : ScratchState := ⟨false, false, false⟩

structure ZipEnv where
  zipOpensOk : Bool
  htmlFiles : List FileEntry
  scratchDir : String
  renderEnv : RenderEnv
  tmpName : String → String
  decodeSize : List Nat → Option (Nat × Nat)
  rmtreeFails : Bool

def joinSlash : List String → String
  | [] => ""
  | [s] => s
  | s :: ss => s ++ "/" ++ joinSlash ss

/-- Absolute path of an extracted entry inside the scratch directory. -/
def entryPath (root : String) (f : FileEntry) : String :=
  root ++ "/" ++ joinSlash (f.dir ++ [f.name])

/-- Model of `extract_zip_to_temp` (lines 276-298): `tempfile.mkdtemp`
always runs first, so the scratch directory exists as soon as the call
starts; `none` models a raised exception (bad archive, or no HTML file),
in which case the caller's `temp_dir` variable stays `None`. -/
def extract_zip_to_temp (env : ZipEnv) : ScratchState × Option String :=
  let st : ScratchState := ⟨true, true, false⟩
  if env.zipOpensOk = false then (st, none)
  else
    match extract_select env.htmlFiles with
    | none => (st, none)
    | some f => (st, some (entryPath env.scratchDir f))

/-- Model of the `finally` blocks (lines 423-428 and 458-463):
`if temp_dir and temp_dir.exists(): try: shutil.rmtree(temp_dir)
except Exception: pass`. -/
def finallyCleanup (env : ZipEnv) (tempDirSet : Bool) (st : ScratchState) :
    ScratchState :=
  if tempDirSet && st.present then
    if env.rmtreeFails then ⟨st.created, st.present, true⟩
    else ⟨st.created, false, true⟩
  else st

inductive ZipOutcome where
  | noFile
  | notZip
  | exported (outPath : String) (written : List Nat) (pixelW pixelH : Nat)
      (ppi : Nat)
  | previewed (outPath : String) (written : List Nat)
  | failed
  deriving DecidableEq

/-- Model of `process_zip_upload` (lines 379-428).  Returns the outcome,
the final scratch-directory state, and the browser trace. -/
def process_zip_upload (env : ZipEnv) (file_obj : Option String)
    (ppi_choice : String) : ZipOutcome × ScratchState × List RenderEvent :=
  match file_obj with
  | none => (ZipOutcome.noFile, noScratch, [])
  | some fp =>
    let ppi := ppiOptionsGet ppi_choice
    if pyEndsWith (lowerStr fp) ".zip" = false then
      (ZipOutcome.notZip, noScratch, [])
    else
      let ex := extract_zip_to_temp env
      match ex.snd with
      | none => (ZipOutcome.failed, finallyCleanup env false ex.fst, [])
      | some htmlPath =>
        let rendered := sync_render_html_file_to_image env.renderEnv htmlPath ppi
        let out : ZipOutcome :=
          match rendered.snd with
          | Except.error _ => ZipOutcome.failed
          | Except.ok bytes =>
            let outPath := env.tmpName ("_export_" ++ toString ppi ++ "PPI.png")
            match env.decodeSize bytes with
            | none => ZipOutcome.failed
            | some wh => ZipOutcome.exported outPath bytes wh.fst wh.snd ppi
        (out, finallyCleanup env true ex.fst, rendered.fst)

/-- Model of `preview_zip_upload` (lines 431-463): same shape, fixed
density 72, `_preview.png` output, no decoding. -/
def preview_zip_upload (env : ZipEnv) (file_obj : Option String) :
    ZipOutcome × ScratchState × List RenderEvent :=
  match file_obj with
  | none => (ZipOutcome.noFile, noScratch, [])
  | some fp =>
    if pyEndsWith (lowerStr fp) ".zip" = false then
      (ZipOutcome.notZip, noScratch, [])
    else
      let ex := extract_zip_to_temp env
      match ex.snd with
      | none => (ZipOutcome.failed, finallyCleanup env false ex.fst, [])
      | some htmlPath =>
        let rendered := sync_render_html_file_to_image env.renderEnv htmlPath 72
        let out : ZipOutcome :=
          match rendered.snd with
          | Except.error _ => ZipOutcome.failed
          | Except.ok bytes =>
            ZipOutcome.previewed (env.tmpName "_preview.png") bytes
        (out, finallyCleanup env true ex.fst, rendered.fst)

/-- Replace only the cleanup-failure flag of the environment. -/
def setRmtreeFails (env : ZipEnv) (b : Bool) : ZipEnv :=
  ⟨env.zipOpensOk, env.htmlFiles, env.scratchDir, env.renderEnv, env.tmpName,
   env.decodeSize, b⟩

theorem finallyCleanup_after (env : ZipEnv) :
    (finallyCleanup env true ⟨true, true, false⟩).rmtreeCalled = true ∧
    (finallyCleanup env true ⟨true, true, false⟩).present = env.rmtreeFails := by
  by_cases hb : env.rmtreeFails = true <;> simp [finallyCleanup, hb]

/-- C3: for every archive-based render whose extraction found a document
— whatever the render, writing and decoding outcomes — both the export and
the preview handler invoke the recursive scratch-directory removal before
returning, the directory is gone whenever the removal does not itself
fail, and a removal failure never changes the returned outcome (it is
suppressed, not propagated). -/
theorem c3_scratch_cleanup (env : ZipEnv) (fp choice : String)
    (hzip : pyEndsWith (lowerStr fp) ".zip" = true)
    (hopen : env.zipOpensOk = true)
    (hsel : (extract_select env.htmlFiles).isSome = true) :
    ((process_zip_upload env (some fp) choice).snd.fst.rmtreeCalled = true ∧
     (env.rmtreeFails = false →
       (process_zip_upload env (some fp) choice).snd.fst.present = false)) ∧
    ((preview_zip_upload env (some fp)).snd.fst.rmtreeCalled = true ∧
     (env.rmtreeFails = false →
       (preview_zip_upload env (some fp)).snd.fst.present = false)) ∧
    (∀ b, (process_zip_upload (setRmtreeFails env b) (some fp) choice).fst =
      (process_zip_upload env (some fp) choice).fst) ∧
    (∀ b, (preview_zip_upload (setRmtreeFails env b) (some fp)).fst =
      (preview_zip_upload env (some fp)).fst) := by
  rcases Option.isSome_iff_exists.mp hsel with ⟨f, hf⟩
  have hex : extract_zip_to_temp env = (⟨true, true, false⟩,
      some (entryPath env.scratchDir f)) := by
    simp [extract_zip_to_temp, hopen, hf]
  have hex' : ∀ b, extract_zip_to_temp (setRmtreeFails env b) = (⟨true, true, false⟩,
      some (entryPath env.scratchDir f)) := by
    intro b
    simp [extract_zip_to_temp, setRmtreeFails, hopen, hf]
  refine ⟨?_, ?_, ?_, ?_⟩
  · constructor
    · simp [process_zip_upload, hzip, hex, (finallyCleanup_after env).1]
    · intro hb
      have := (finallyCleanup_after env).2
      rw [hb] at this
      simp [process_zip_upload, hzip, hex, this]
  · constructor
    · simp [preview_zip_upload, hzip, hex, (finallyCleanup_after env).1]
    · intro hb
      have := (finallyCleanup_after env).2
      rw [hb] at this
      simp [preview_zip_upload, hzip, hex, this]
  · intro b
    simp only [process_zip_upload]
    rw [hex' b, hex]
    simp [setRmtreeFails, hzip]
  · intro b
    simp only [preview_zip_upload]
    rw [hex' b, hex]
    simp [setRmtreeFails, hzip]

def c3DemoEnv : ZipEnv :=
  ⟨true, [⟨[], "poster.html"⟩], "/tmp/scratch",
   ⟨fun s => s, false, false, true, [1], [2]⟩,
   fun s => "/tmp/out" ++ s, fun _ => some (10, 20), false⟩

/-- Witness for C3 at a concrete archive environment. -/
theorem c3_scratch_cleanup_witness :
    ((process_zip_upload c3DemoEnv (some "a.zip") "300 PPI (高清印刷)").snd.fst.rmtreeCalled
        = true ∧
     (c3DemoEnv.rmtreeFails = false →
       (process_zip_upload c3DemoEnv (some "a.zip")
         "300 PPI (高清印刷)").snd.fst.present = false)) ∧
    ((preview_zip_upload c3DemoEnv (some "a.zip")).snd.fst.rmtreeCalled = true ∧
     (c3DemoEnv.rmtreeFails = false →
       (preview_zip_upload c3DemoEnv (some "a.zip")).snd.fst.present = false)) ∧
    (∀ b, (process_zip_upload (setRmtreeFails c3DemoEnv b) (some "a.zip")
        "300 PPI (高清印刷)").fst =
      (process_zip_upload c3DemoEnv (some "a.zip") "300 PPI (高清印刷)").fst) ∧
    (∀ b, (preview_zip_upload (setRmtreeFails c3DemoEnv b) (some "a.zip")).fst =
      (preview_zip_upload c3DemoEnv (some "a.zip")).fst) :=
  c3_scratch_cleanup c3DemoEnv "a.zip" "300 PPI (高清印刷)" (by decide) rfl
    (by decide)

/-- C9 as claimed, in its failing component: the name of every successful
export's output file embeds the stem of the source document (for archive
exports, the stem of the HTML file selected inside the archive). -/
def c9Claim : Prop :=
  ∀ (env : ZipEnv) (fp choice o : String) (b : List Nat) (w h ppi : Nat),
    (process_zip_upload env (some fp) choice).fst =
      ZipOutcome.exported o b w h ppi →
    ∀ f, extract_select env.htmlFiles = some f →
      pyIn (pathStem f.name) o = true

def c9DemoEnv : ZipEnv :=
  ⟨true, [⟨[], "poster.html"⟩], "/s",
   ⟨fun s => s, false, false, true, [9], [2]⟩,
   fun s => "/t" ++ s, fun _ => some (10, 20), false⟩

/-- Counterexample to C9: a ZIP export whose selected document is
`poster.html` produces the output name `/t_export_300PPI.png`, which does
not contain the source stem "poster" — the ZIP export path uses the fixed
word "export" instead of the stem. -/
theorem c9_counterexample : ¬ c9Claim := by
  intro hcl
  have h := hcl c9DemoEnv "a.zip" "300 PPI (高清印刷)" "/t_export_300PPI.png"
    [9] 10 20 300 (by decide) ⟨[], "poster.html"⟩ (by decide)
  revert h
  decide

/-- C9 amended: bytes are written verbatim and dimensions are decoded from
the bytes in both export paths; the local export's file name embeds the
source stem, the density and the fixed `PPI.png` suffix, while the ZIP
export's file name embeds the fixed word "export" and the density, not
the source stem. -/
theorem c9_amended :
    (∀ (env : LocalEnv) (path choice o : String) (b : List Nat) (w h ppi : Nat)
        (src : String),
      (process_local_path env path choice).fst =
        LocalOutcome.exported o b w h ppi src →
      src = env.expanduser (pyStrip path) ∧ ppi = ppiOptionsGet choice ∧
      o = env.tmpName ("_" ++ pathStem src ++ "_" ++ toString ppi ++ "PPI.png") ∧
      (sync_render_html_file_to_image env.renderEnv src ppi).snd = Except.ok b ∧
      env.decodeSize b = some (w, h)) ∧
    (∀ (env : ZipEnv) (fp choice o : String) (b : List Nat) (w h ppi : Nat),
      (process_zip_upload env (some fp) choice).fst =
        ZipOutcome.exported o b w h ppi →
      ppi = ppiOptionsGet choice ∧
      o = env.tmpName ("_export_" ++ toString ppi ++ "PPI.png") ∧
      env.decodeSize b = some (w, h) ∧
      ∃ f, extract_select env.htmlFiles = some f ∧
        (sync_render_html_file_to_image env.renderEnv
          (entryPath env.scratchDir f) ppi).snd = Except.ok b) := by
  constructor
  · intro env path choice o b w h ppi src hout
    by_cases h1 : pyStrip path = ""
    · simp [process_local_path, h1] at hout
    cases hpe : env.pathExists (env.expanduser (pyStrip path)) with
    | false => simp [process_local_path, h1, hpe] at hout
    | true =>
      cases hhe : hasHtmlExt (env.expanduser (pyStrip path)) with
      | false => simp [process_local_path, h1, hpe, hhe] at hout
      | true =>
        simp only [process_local_path, h1, hpe, hhe, if_neg, if_pos,
          Bool.true_eq_false, if_false] at hout
        cases hres : (sync_render_html_file_to_image env.renderEnv
            (env.expanduser (pyStrip path)) (ppiOptionsGet choice)).snd with
        | error e => simp [hres] at hout
        | ok bytes =>
          simp only [hres] at hout
          cases hdec : env.decodeSize bytes with
          | none => simp [hdec] at hout
          | some wh =>
            simp only [hdec, LocalOutcome.exported.injEq] at hout
            obtain ⟨ho, hb, hw, hh, hp, hs⟩ := hout
            subst hb hp hs
            exact ⟨rfl, rfl, ho.symm, hres, by rw [hdec, ← hw, ← hh]⟩
  · intro env fp choice o b w h ppi hout
    cases hz : pyEndsWith (lowerStr fp) ".zip" with
    | false => simp [process_zip_upload, hz] at hout
    | true =>
      cases hex : (extract_zip_to_temp env).snd with
      | none => simp [process_zip_upload, hz, hex] at hout
      | some htmlPath =>
        simp only [process_zip_upload, hz, hex, Bool.true_eq_false, if_false] at hout
        cases hres : (sync_render_html_file_to_image env.renderEnv htmlPath
            (ppiOptionsGet choice)).snd with
        | error e => simp [hres] at hout
        | ok bytes =>
          simp only [hres] at hout
          cases hdec : env.decodeSize bytes with
          | none => simp [hdec] at hout
          | some wh =>
            simp only [hdec, ZipOutcome.exported.injEq] at hout
            obtain ⟨ho, hb, hw, hh, hp⟩ := hout
            subst hb hp
            have hfsel : ∃ f, extract_select env.htmlFiles = some f ∧
                htmlPath = entryPath env.scratchDir f := by
              by_cases hop : env.zipOpensOk = false
              · simp [extract_zip_to_temp, hop] at hex
              · cases hf : extract_select env.htmlFiles with
                | none => simp [extract_zip_to_temp, hop, hf] at hex
                | some f =>
                  refine ⟨f, rfl, ?_⟩
                  simp [extract_zip_to_temp, hop, hf] at hex
                  exact hex.symm
            obtain ⟨f, hf, hfp⟩ := hfsel
            refine ⟨rfl, ho.symm, by rw [hdec, ← hw, ← hh], f, hf, ?_⟩
            rw [← hfp, hres]

def c9LocalDemoEnv : LocalEnv :=
  ⟨fun _ => true, fun s => s, ⟨fun s => s, false, false, true, [9], [2]⟩,
   fun s => "/t" ++ s, fun _ => some (10, 20)⟩

/-- Witness for the amended C9 at a concrete local export. -/
theorem c9_amended_witness :
    "/p/poster.html" = c9LocalDemoEnv.expanduser (pyStrip "/p/poster.html") ∧
    300 = ppiOptionsGet "300 PPI (高清印刷)" ∧
    "/t_poster_300PPI.png" = c9LocalDemoEnv.tmpName
      ("_" ++ pathStem "/p/poster.html" ++ "_" ++ toString 300 ++ "PPI.png") ∧
    (sync_render_html_file_to_image c9LocalDemoEnv.renderEnv "/p/poster.html"
      300).snd = Except.ok [9] ∧
    c9LocalDemoEnv.decodeSize [9] = some (10, 20) :=
  c9_amended.1 c9LocalDemoEnv "/p/poster.html" "300 PPI (高清印刷)"
    "/t_poster_300PPI.png" [9] 10 20 300 "/p/poster.html" (by decide)

/-! ## C8: the injected style override -/

/-- C8 as claimed: the style injected on every render is the one fixed CSS
string, which forces a fully opaque (alpha = 1) near-white glass-panel
background, removes backdrop blur with `!important`, forces
geometric-precision text rendering with antialiased smoothing, and hides
the `#control-panel` element with `display: none !important`. -/
def c8Claim : Prop :=
  (∀ (env : RenderEnv) (path : String) (ppi w h : Nat) (sel css : String),
    RenderEvent.addStyleTag css ∈
      (render_html_file_to_image env path ppi w h sel).fst →
    css = snapshotCss) ∧
  glassPanelAlpha = 1 ∧
  pyIn "backdrop-filter: none !important" snapshotCss = true ∧
  pyIn "text-rendering: geometricPrecision" snapshotCss = true ∧
  pyIn "-webkit-font-smoothing: antialiased" snapshotCss = true ∧
  pyIn "display: none !important" snapshotCss = true

/-- Counterexample to C8: the glass-panel background the injected CSS
forces is `rgba(255, 255, 255, 0.96)` — alpha 0.96, not fully opaque. -/
theorem c8_counterexample : ¬ c8Claim := by
  intro h
  have halpha := h.2.1
  norm_num [glassPanelAlpha] at halpha

set_option maxRecDepth 100000 in
/-- C8 amended: the injected style is the one fixed CSS string — every
style injection in any render's trace injects exactly `snapshotCss`,
independent of all parameters — and it forces a near-opaque (alpha 0.96)
white glass-panel background and removes backdrop blur with `!important`,
forces geometric-precision text rendering with antialiased smoothing on
`body, #poster`, and hides `#control-panel` with
`display: none !important`. -/
theorem c8_amended (env : RenderEnv) (path : String) (ppi w h : Nat)
    (sel : String) (hgoto : env.gotoFails = false) :
    RenderEvent.addStyleTag snapshotCss ∈
      (render_html_file_to_image env path ppi w h sel).fst ∧
    (∀ css, RenderEvent.addStyleTag css ∈
        (render_html_file_to_image env path ppi w h sel).fst →
      css = snapshotCss) ∧
    glassPanelAlpha = 96 / 100 ∧ glassPanelAlpha < 1 ∧
    pyIn ".glass-panel" snapshotCss = true ∧
    pyIn "background: rgba(255, 255, 255, 0.96) !important" snapshotCss = true ∧
    pyIn "backdrop-filter: none !important" snapshotCss = true ∧
    pyIn "body, #poster" snapshotCss = true ∧
    pyIn "text-rendering: geometricPrecision" snapshotCss = true ∧
    pyIn "-webkit-font-smoothing: antialiased" snapshotCss = true ∧
    pyIn "#control-panel" snapshotCss = true ∧
    pyIn "display: none !important" snapshotCss = true := by
  refine ⟨?_, ?_, rfl, by norm_num [glassPanelAlpha], by decide, by decide,
    by decide, by decide, by decide, by decide, by decide, by decide⟩
  · by_cases hs : env.selectorFound <;>
      simp [render_html_file_to_image, hgoto, hs]
  · intro css hmem
    by_cases hs : env.selectorFound <;>
      simp [render_html_file_to_image, hgoto, hs] at hmem <;> exact hmem

def c8DemoEnv : RenderEnv :=
  ⟨fun s => s, false, false, true, [1], [2]⟩

/-- Witness for the amended C8 at a concrete environment. -/
theorem c8_amended_witness :
    RenderEvent.addStyleTag snapshotCss ∈
      (render_html_file_to_image c8DemoEnv "/p/a.html" 300 900 1200 "#poster").fst ∧
    (∀ css, RenderEvent.addStyleTag css ∈
        (render_html_file_to_image c8DemoEnv "/p/a.html" 300 900 1200 "#poster").fst →
      css = snapshotCss) ∧
    glassPanelAlpha = 96 / 100 ∧ glassPanelAlpha < 1 ∧
    pyIn ".glass-panel" snapshotCss = true ∧
    pyIn "background: rgba(255, 255, 255, 0.96) !important" snapshotCss = true ∧
    pyIn "backdrop-filter: none !important" snapshotCss = true ∧
    pyIn "body, #poster" snapshotCss = true ∧
    pyIn "text-rendering: geometricPrecision" snapshotCss = true ∧
    pyIn "-webkit-font-smoothing: antialiased" snapshotCss = true ∧
    pyIn "#control-panel" snapshotCss = true ∧
    pyIn "display: none !important" snapshotCss = true :=
  c8_amended c8DemoEnv "/p/a.html" 300 900 1200 "#poster" rfl

/-! ## C10: the preview buttons render at the fixed density 72

The Gradio event bindings (lines 593-630) pass only the path or file
input to the preview handlers — never `ppi_dropdown` — and the handlers
call the renderer with `ppi=72` (lines 366, 446). -/

structure UIState where
  localPath : String
  ppiChoice : String
  zipFile : Option String

def setPpiChoice (st : UIState) (c : String) : UIState :=
  ⟨st.localPath, c, st.zipFile⟩

/-- Model of the `local_preview_btn.click` binding (lines 593-597):
inputs are `[local_path_input]` only. -/
def onLocalPreviewClick (env : LocalEnv) (st : UIState) :
    LocalOutcome × List RenderEvent :=
  preview_local_path env st.localPath

/-- Model of the `zip_preview_btn.click` binding (lines 613-617):
inputs are `[zip_input]` only. -/
def onZipPreviewClick (env : ZipEnv) (st : UIState) :
    ZipOutcome × ScratchState × List RenderEvent :=
  preview_zip_upload env st.zipFile

/-- C10: both preview handlers are unaffected by the density preset
selected in the export settings, and every browser context they ever
create uses the scale 72 / 96 — the previews always render at density 72. -/
theorem c10_preview_fixed_72 (envL : LocalEnv) (envZ : ZipEnv)
    (st : UIState) (c : String) :
    onLocalPreviewClick envL (setPpiChoice st c) = onLocalPreviewClick envL st ∧
    onZipPreviewClick envZ (setPpiChoice st c) = onZipPreviewClick envZ st ∧
    (∀ a b s, RenderEvent.newContext a b s ∈
        (onLocalPreviewClick envL st).snd → s = (72 : ℚ) / 96) ∧
    (∀ a b s, RenderEvent.newContext a b s ∈
        (onZipPreviewClick envZ st).snd.snd → s = (72 : ℚ) / 96) := by
  refine ⟨rfl, rfl, ?_, ?_⟩
  · intro a b s hmem
    by_cases h1 : pyStrip st.localPath = ""
    · simp [onLocalPreviewClick, preview_local_path, h1] at hmem
    cases hpe : envL.pathExists (envL.expanduser (pyStrip st.localPath)) with
    | false => simp [onLocalPreviewClick, preview_local_path, h1, hpe] at hmem
    | true =>
      cases hhe : hasHtmlExt (envL.expanduser (pyStrip st.localPath)) with
      | false => simp [onLocalPreviewClick, preview_local_path, h1, hpe, hhe] at hmem
      | true =>
        have hmem' : RenderEvent.newContext a b s ∈
            (sync_render_html_file_to_image envL.renderEnv
              (envL.expanduser (pyStrip st.localPath)) 72).fst := by
          simpa [onLocalPreviewClick, preview_local_path, h1, hpe, hhe] using hmem
        exact (render_newContext_mem envL.renderEnv
          (envL.expanduser (pyStrip st.localPath)) 72 DEFAULT_WIDTH DEFAULT_HEIGHT
          "#poster" a b s hmem').2.2
  · intro a b s hmem
    cases hzf : st.zipFile with
    | none => simp [onZipPreviewClick, preview_zip_upload, hzf] at hmem
    | some fp =>
      cases hz : pyEndsWith (lowerStr fp) ".zip" with
      | false => simp [onZipPreviewClick, preview_zip_upload, hzf, hz] at hmem
      | true =>
        cases hext : (extract_zip_to_temp envZ).snd with
        | none => simp [onZipPreviewClick, preview_zip_upload, hzf, hz, hext] at hmem
        | some htmlPath =>
          have hmem' : RenderEvent.newContext a b s ∈
              (sync_render_html_file_to_image envZ.renderEnv htmlPath 72).fst := by
            simpa [onZipPreviewClick, preview_zip_upload, hzf, hz, hext] using hmem
          exact (render_newContext_mem envZ.renderEnv htmlPath 72 DEFAULT_WIDTH
            DEFAULT_HEIGHT "#poster" a b s hmem').2.2

end Poster2
